import Mathlib

/-!
# FlowForge backend — shallow embedding

A shallow embedding of the FlowForge API backend (`main.py`, `schemas.py`):
a portfolio/projects catalog over PostgreSQL.  Rows of the `projects` table
and its five child tables are modelled as Lean structures, the database as
lists of rows, and each HTTP handler as a pure function from a store (plus
request data) to a response, paired with the resulting store for mutating
handlers.

The aggregation statement `PROJECT_QUERY` is embedded twice over.  Its
declarative reading — five `LEFT JOIN`s producing the Cartesian product of
the (null-padded) child row lists, collapsed back into deduplicated arrays
by the grouped `jsonb_agg(DISTINCT ...)` aggregates with `COALESCE(..., [])`
defaults — is captured by `aggregate_project` and the `agg*` functions.
Separately, PostgreSQL's parse analysis of aggregate calls is modelled: an
aggregate with `DISTINCT` is accepted only if every `ORDER BY` expression
appears in its argument list (SQLSTATE 42P10 otherwise).  The steps
aggregate of `PROJECT_QUERY` orders by `s.position`, which is not its
argument, so the statement is rejected on every execution and the read
endpoints propagate the database error instead of serving documents; the
endpoint functions `get_projects` and `get_project` reflect this.
Machine-generated identifiers and timestamps are modelled as naturals
produced by a deterministic fresh-id function.
-/

namespace FlowForge

/-- A row of the `projects` table (`main.py` selects
`id, title, slug, category, short_desc, cover_color, created_at`, and
`is_published` is used in `WHERE` clauses and by the publish toggle). -/
structure ProjectRow where
  id : Nat
  title : String
  slug : String
  category : String
  short_desc : String
  cover_color : String
  created_at : Nat
  is_published : Bool
deriving DecidableEq, Repr

/-- A row of `project_details` (1:0..1 child; columns `challenge, solution,
timeline, before_text, after_text, code_snippet`, each nullable). -/
structure DetailRow where
  project_id : Nat
  challenge : Option String
  solution : Option String
  timeline : Option String
  before_text : Option String
  after_text : Option String
  code_snippet : Option String
deriving DecidableEq, Repr

/-- A row of `project_tech_stack` (column `tech`, nullable: the query filters
`WHERE t.tech IS NOT NULL`). -/
structure TechRow where
  project_id : Nat
  tech : Option String
deriving DecidableEq, Repr

/-- A row of `project_steps` (columns `id, title, description, position`). -/
structure StepRow where
  id : Nat
  project_id : Nat
  title : String
  description : String
  position : Int
deriving DecidableEq, Repr

/-- A row of `project_results` (columns `id, label, value`). -/
structure ResultRow where
  id : Nat
  project_id : Nat
  label : String
  value : String
deriving DecidableEq, Repr

/-- A row of `project_links` (columns `id, label, url, icon`). -/
structure LinkRow where
  id : Nat
  project_id : Nat
  label : String
  url : String
  icon : String
deriving DecidableEq, Repr

/-- The database: one list of rows per table. -/
structure Store where
  projects : List ProjectRow
  details : List DetailRow
  techs : List TechRow
  steps : List StepRow
  results : List ResultRow
  links : List LinkRow
deriving DecidableEq, Repr

/-- The empty database. -/
def Store.empty : Store := ⟨[], [], [], [], [], []⟩

/-! ## The aggregation query `PROJECT_QUERY` -/

/-- `LEFT JOIN` padding: joining a parent row against its matching child rows
keeps the parent with a single all-NULL child when no child matches. -/
def leftJoin {α : Type} (xs : List α) : List (Option α) :=
  match xs with
  | [] => [none]
  | xs => xs.map some

/-- Child rows of `project_details` matching `d.project_id = p.id`. -/
def detailsFor (st : Store) (pid : Nat) : List DetailRow :=
  st.details.filter (fun d => d.project_id = pid)

/-- Child rows of `project_tech_stack` matching `t.project_id = p.id`. -/
def techsFor (st : Store) (pid : Nat) : List TechRow :=
  st.techs.filter (fun t => t.project_id = pid)

/-- Child rows of `project_steps` matching `s.project_id = p.id`. -/
def stepsFor (st : Store) (pid : Nat) : List StepRow :=
  st.steps.filter (fun s => s.project_id = pid)

/-- Child rows of `project_results` matching `r.project_id = p.id`. -/
def resultsFor (st : Store) (pid : Nat) : List ResultRow :=
  st.results.filter (fun r => r.project_id = pid)

/-- Child rows of `project_links` matching `l.project_id = p.id`. -/
def linksFor (st : Store) (pid : Nat) : List LinkRow :=
  st.links.filter (fun l => l.project_id = pid)

/-- One row of the five-way `LEFT JOIN` of `PROJECT_QUERY` for a fixed
parent row, before grouping: an optional row per child table. -/
structure JoinedRow where
  d : Option DetailRow
  t : Option TechRow
  s : Option StepRow
  r : Option ResultRow
  l : Option LinkRow
deriving DecidableEq, Repr

/-- All joined rows for parent `p`: the Cartesian product of the five
null-padded child row lists (the multi-way `LEFT JOIN` expansion). -/
def joinedRows (st : Store) (p : ProjectRow) : List JoinedRow :=
  (leftJoin (detailsFor st p.id)).flatMap fun d =>
  (leftJoin (techsFor st p.id)).flatMap fun t =>
  (leftJoin (stepsFor st p.id)).flatMap fun s =>
  (leftJoin (resultsFor st p.id)).flatMap fun r =>
  (leftJoin (linksFor st p.id)).map fun l => ⟨d, t, s, r, l⟩

/-- The `details` JSON object built by `jsonb_build_object('challenge', ...,
'solution', ..., 'timeline', ..., 'before', ..., 'after', ...,
'code_snippet', ...)`: six scalar fields, each NULL when the detail join
matched nothing. -/
structure DetailsObj where
  challenge : Option String
  solution : Option String
  timeline : Option String
  before : Option String
  after : Option String
  code_snippet : Option String
deriving DecidableEq, Repr

/-- An element of the `steps` array:
`jsonb_build_object('title', s.title, 'text', s.description, 'position', s.position)`. -/
structure StepEntry where
  title : String
  text : String
  position : Int
deriving DecidableEq, Repr

/-- An element of the `results` array:
`jsonb_build_object('label', r.label, 'value', r.value)`. -/
structure ResultEntry where
  label : String
  value : String
deriving DecidableEq, Repr

/-- An element of the `links` array:
`jsonb_build_object('label', l.label, 'url', l.url, 'icon', l.icon)`. -/
structure LinkEntry where
  label : String
  url : String
  icon : String
deriving DecidableEq, Repr

/-- One output row of `PROJECT_QUERY`: scalar project columns plus the
aggregated `details`, `tech_stack`, `steps`, `results`, `links` fields. -/
structure ProjectDoc where
  id : Nat
  title : String
  slug : String
  category : String
  short_desc : String
  cover_color : String
  created_at : Nat
  details : DetailsObj
  tech_stack : List String
  steps : List StepEntry
  results : List ResultEntry
  links : List LinkEntry
deriving DecidableEq, Repr

/-- Ordering relation of `ORDER BY s.position` on step entries. -/
def stepLe (a b : StepEntry) : Prop := a.position ≤ b.position

instance : DecidableRel stepLe := fun a b => Int.decLe a.position b.position

instance : IsTotal StepEntry stepLe := ⟨fun a b => Int.le_total a.position b.position⟩

instance : IsTrans StepEntry stepLe := ⟨fun _ _ _ h h' => le_trans h h'⟩

/-- `COALESCE(jsonb_agg(DISTINCT t.tech) FILTER (WHERE t.tech IS NOT NULL), [])`:
the non-NULL `tech` values of the joined rows, deduplicated; `[]` when every
joined row was filtered out. -/
def aggTechStack (rows : List JoinedRow) : List String :=
  (rows.filterMap fun row => row.t.bind (fun tr => tr.tech)).dedup

/-- The declarative reading of `COALESCE(jsonb_agg(DISTINCT
jsonb_build_object(...) ORDER BY s.position) FILTER (WHERE s.id IS NOT
NULL), [])`: the step objects of the joined rows whose step join matched,
ordered by `position` and deduplicated.  PostgreSQL in fact rejects this
aggregate call at parse analysis (see `stepsAggregate` and
`orderByOkForDistinct` below), so the statement never produces this value;
the reading is kept to state what the query was written to return. -/
def aggSteps (rows : List JoinedRow) : List StepEntry :=
  (List.insertionSort stepLe
    (rows.filterMap fun row =>
      row.s.map (fun sr => StepEntry.mk sr.title sr.description sr.position))).dedup

/-- `COALESCE(jsonb_agg(DISTINCT jsonb_build_object('label', r.label, 'value',
r.value)) FILTER (WHERE r.id IS NOT NULL), [])`. -/
def aggResults (rows : List JoinedRow) : List ResultEntry :=
  (rows.filterMap fun row =>
    row.r.map (fun rr => ResultEntry.mk rr.label rr.value)).dedup

/-- `COALESCE(jsonb_agg(DISTINCT jsonb_build_object('label', l.label, 'url',
l.url, 'icon', l.icon)) FILTER (WHERE l.id IS NOT NULL), [])`. -/
def aggLinks (rows : List JoinedRow) : List LinkEntry :=
  (rows.filterMap fun row =>
    row.l.map (fun lr => LinkEntry.mk lr.label lr.url lr.icon)).dedup

/-- The `details` object of a joined detail row (all fields NULL when the
1:0..1 join matched nothing). -/
def aggDetails (d : Option DetailRow) : DetailsObj :=
  match d with
  | none => ⟨none, none, none, none, none, none⟩
  | some dr => ⟨dr.challenge, dr.solution, dr.timeline, dr.before_text,
      dr.after_text, dr.code_snippet⟩

/-- The output row `PROJECT_QUERY` was written to produce for one parent
row `p` after `GROUP BY p.id, d.project_id` collapses its joined rows.
This is the statement's declarative reading only: PostgreSQL rejects the
statement at parse analysis (`PROJECT_QUERY_accepted = false` below), so
the real query never yields any output row.  The endpoint functions consult
`PROJECT_QUERY_accepted` before using this reading. -/
def aggregate_project (st : Store) (p : ProjectRow) : ProjectDoc :=
  { id := p.id
    title := p.title
    slug := p.slug
    category := p.category
    short_desc := p.short_desc
    cover_color := p.cover_color
    created_at := p.created_at
    details := aggDetails ((detailsFor st p.id).head?)
    tech_stack := aggTechStack (joinedRows st p)
    steps := aggSteps (joinedRows st p)
    results := aggResults (joinedRows st p)
    links := aggLinks (joinedRows st p) }

/-! ## PostgreSQL parse analysis of the aggregate calls

PostgreSQL requires that when an aggregate call uses `DISTINCT`, every
`ORDER BY` expression inside the call matches one of the aggregate's
regular arguments; otherwise the statement is rejected at parse analysis
with SQLSTATE 42P10 ("in an aggregate with DISTINCT, ORDER BY expressions
must appear in argument list"), before any row is read.  The four
`jsonb_agg` calls of `PROJECT_QUERY` are embedded as data and checked
against this rule.  `FILTER` and `COALESCE` play no part in the rule. -/

/-- An expression appearing in a `jsonb_agg` call of `PROJECT_QUERY`:
either a plain column reference `table.column`, or a
`jsonb_build_object(key, table.column, ...)` call, one
`(key, table, column)` triple per field. -/
inductive AggArg where
  | col (table column : String)
  | buildObject (fields : List (String × String × String))
deriving DecidableEq, Repr

/-- One aggregate call: whether it is `DISTINCT`, its single argument, and
the `ORDER BY` expressions written inside the call. -/
structure AggregateCall where
  distinct : Bool
  arg : AggArg
  orderBy : List AggArg
deriving DecidableEq, Repr

/-- PostgreSQL's parse-analysis rule for `DISTINCT` aggregates: every
`ORDER BY` expression must be one of the aggregate's arguments (here, the
single argument).  A call without `DISTINCT` is unconstrained. -/
def orderByOkForDistinct (c : AggregateCall) : Bool :=
  !c.distinct || c.orderBy.all (fun e => decide (e = c.arg))

/-- `jsonb_agg(DISTINCT t.tech)`. -/
def techAggregate : AggregateCall :=
  { distinct := true, arg := .col "t" "tech", orderBy := [] }

/-- `jsonb_agg(DISTINCT jsonb_build_object('title', s.title, 'text',
s.description, 'position', s.position) ORDER BY s.position)`: the argument
is the whole `jsonb_build_object(...)` expression, while the `ORDER BY`
expression is the bare column `s.position`. -/
def stepsAggregate : AggregateCall :=
  { distinct := true
    arg := .buildObject
      [("title", "s", "title"), ("text", "s", "description"),
       ("position", "s", "position")]
    orderBy := [.col "s" "position"] }

/-- `jsonb_agg(DISTINCT jsonb_build_object('label', r.label, 'value',
r.value))`. -/
def resultsAggregate : AggregateCall :=
  { distinct := true
    arg := .buildObject [("label", "r", "label"), ("value", "r", "value")]
    orderBy := [] }

/-- `jsonb_agg(DISTINCT jsonb_build_object('label', l.label, 'url', l.url,
'icon', l.icon))`. -/
def linksAggregate : AggregateCall :=
  { distinct := true
    arg := .buildObject
      [("label", "l", "label"), ("url", "l", "url"), ("icon", "l", "icon")]
    orderBy := [] }

/-- The aggregate calls of `PROJECT_QUERY`, in source order. -/
def PROJECT_QUERY_aggregates : List AggregateCall :=
  [techAggregate, stepsAggregate, resultsAggregate, linksAggregate]

/-- Whether PostgreSQL's parse analysis accepts `PROJECT_QUERY`: it does
exactly when every aggregate call passes the `DISTINCT`/`ORDER BY` rule.
The steps aggregate fails it, so this is `false` and every execution of the
statement raises instead of returning rows. -/
def PROJECT_QUERY_accepted : Bool :=
  PROJECT_QUERY_aggregates.all orderByOkForDistinct

/-! ## HTTP layer -/

/-- An `HTTPException(status_code, detail)`. -/
structure HTTPError where
  status : Nat
  detail : String
deriving DecidableEq, Repr

instance {e a : Type} [DecidableEq e] [DecidableEq a] : DecidableEq (Except e a) := fun
  | .error x, .error y =>
    if h : x = y then .isTrue (by rw [h]) else .isFalse (fun hc => by cases hc; exact h rfl)
  | .error _, .ok _ => .isFalse (fun hc => by cases hc)
  | .ok _, .error _ => .isFalse (fun hc => by cases hc)
  | .ok x, .ok y =>
    if h : x = y then .isTrue (by rw [h]) else .isFalse (fun hc => by cases hc; exact h rfl)

/-- Python `str.lower()`: lowercase every character. -/
def pyLower (s : String) : String := ⟨s.data.map Char.toLower⟩

/-- Python `str.strip()`: drop leading and trailing whitespace. -/
def pyStrip (s : String) : String :=
  ⟨((s.data.dropWhile Char.isWhitespace).reverse.dropWhile Char.isWhitespace).reverse⟩

/-- The slug normalization `slug.lower().strip()` applied by the create
handler before the insert. -/
def normalize_slug (s : String) : String := pyStrip (pyLower s)

/-- Ordering relation of `ORDER BY p.created_at DESC` on project rows. -/
def createdDesc (a b : ProjectRow) : Prop := b.created_at ≤ a.created_at

instance : DecidableRel createdDesc := fun a b => Nat.decLe b.created_at a.created_at

instance : IsTotal ProjectRow createdDesc := ⟨fun a b => Nat.le_total b.created_at a.created_at⟩

instance : IsTrans ProjectRow createdDesc := ⟨fun _ _ _ h h' => le_trans h' h⟩

/-- The rows the list form of `PROJECT_QUERY` (restricted by
`WHERE p.is_published = TRUE`, grouped per project, `ORDER BY p.created_at
DESC`) was written to return, under the declarative reading of its
aggregates. -/
def project_query_rows (st : Store) : List ProjectDoc :=
  (List.insertionSort createdDesc
    (st.projects.filter (fun p => p.is_published))).map (aggregate_project st)

/-- The row the single-item form of `PROJECT_QUERY` (restricted by
`WHERE p.slug = %s AND p.is_published = TRUE ... LIMIT 1`) was written to
return, under the declarative reading of its aggregates. -/
def project_query_row (st : Store) (slug : String) : Option ProjectDoc :=
  ((st.projects.filter (fun p => p.slug = slug && p.is_published)).head?).map
    (aggregate_project st)

/-- `GET /projects`: `cur.execute` sends `PROJECT_QUERY` to PostgreSQL,
whose parse analysis rejects it (`PROJECT_QUERY_accepted = false`); the
raised database error propagates out of the handler and the framework
answers 500.  Were the statement accepted, the fetched rows would be
returned. -/
def get_projects (st : Store) : Except HTTPError (List ProjectDoc) :=
  if PROJECT_QUERY_accepted then
    .ok (project_query_rows st)
  else
    .error ⟨500, "Internal Server Error"⟩

/-- `GET /projects/{slug}`: `cur.execute` raises for the same reason, so
the handler's `fetchone` and its 404 branch are unreachable and every
request is answered 500.  Were the statement accepted, a missing row would
give the 404 and a present row the aggregated document. -/
def get_project (st : Store) (slug : String) : Except HTTPError ProjectDoc :=
  if PROJECT_QUERY_accepted then
    match project_query_row st slug with
    | none => .error ⟨404, "Project not found"⟩
    | some doc => .ok doc
  else
    .error ⟨500, "Internal Server Error"⟩

/-- `admin_auth`: reads `ADMIN_TOKEN` from the environment (`none` when the
variable is unset).  `if not ADMIN_TOKEN` in Python is true for `None` and
for the empty string, giving a 500; otherwise `x_admin_token != ADMIN_TOKEN`
(an `Optional[str]` compared with the configured string) gives a 401. -/
def admin_auth (adminToken : Option String) (x_admin_token : Option String) :
    Except HTTPError Unit :=
  match adminToken with
  | none => .error ⟨500, "ADMIN_TOKEN not set"⟩
  | some tok =>
    if tok = "" then .error ⟨500, "ADMIN_TOKEN not set"⟩
    else if x_admin_token = some tok then .ok ()
    else .error ⟨401, "Unauthorized"⟩

/-- A fresh machine-generated row id (the database assigns ids and
`created_at` timestamps; modelled as one more than the largest id in use). -/
def nextId (st : Store) : Nat :=
  (st.projects.foldr (fun p acc => max p.id acc) 0) + 1

/-- Response body of `POST /admin/projects`:
`{"success": True, "project_id": project_id}`. -/
structure CreateResp where
  success : Bool
  project_id : Nat
deriving DecidableEq, Repr

/-- `POST /admin/projects`: after `admin_auth`, `INSERT INTO projects (title,
slug, category, short_desc, cover_color, is_published)` with the slug
normalized by `slug.lower().strip()`.  A `UniqueViolation` on the slug's
unique index is rolled back and reported as a 409.  Returns the response
together with the store after the request. -/
def create_project (st : Store) (adminToken x_admin_token : Option String)
    (title slug category short_desc cover_color : String)
    (is_published : Bool := false) :
    Except HTTPError CreateResp × Store :=
  match admin_auth adminToken x_admin_token with
  | .error e => (.error e, st)
  | .ok () =>
    let normSlug := normalize_slug slug
    if st.projects.any (fun p => p.slug = normSlug) then
      -- UniqueViolation: conn.rollback(); HTTPException 409
      (.error ⟨409, "Slug already exists"⟩, st)
    else
      let row : ProjectRow :=
        { id := nextId st
          title := title
          slug := normSlug
          category := category
          short_desc := short_desc
          cover_color := cover_color
          created_at := nextId st
          is_published := is_published }
      (.ok ⟨true, row.id⟩, { st with projects := st.projects ++ [row] })

/-- The row update of `UPDATE projects SET is_published = NOT is_published
WHERE id = %s` on one row: flip the flag when the `WHERE` clause selects the
row, leave the row unchanged otherwise. -/
def toggleRow (project_id : Nat) (p : ProjectRow) : ProjectRow :=
  if p.id = project_id then { p with is_published := !p.is_published } else p

/-- `PATCH /admin/projects/{project_id}/publish`: after `admin_auth`,
`UPDATE projects SET is_published = NOT is_published WHERE id = %s RETURNING
is_published`; `fetchone()` yields the returned row or `None`, and `None`
becomes a 404 after the commit.  Returns the new flag together with the
store after the request. -/
def toggle_publish (st : Store) (adminToken x_admin_token : Option String)
    (project_id : Nat) : Except HTTPError Bool × Store :=
  match admin_auth adminToken x_admin_token with
  | .error e => (.error e, st)
  | .ok () =>
    let updated := st.projects.map (toggleRow project_id)
    match (updated.filter (fun p => p.id = project_id)).head? with
    | none => (.error ⟨404, "Project not found"⟩, { st with projects := updated })
    | some row => (.ok row.is_published, { st with projects := updated })

/-! ## Validation schema (`schemas.py`) -/

/-- The constraints `ProjectBase` declares on a create payload in
`schemas.py`: `title: str = Field(..., min_length=3)` and
`slug: str = Field(..., min_length=3)` (the remaining fields are optional or
defaulted). -/
def ProjectBase_valid (title slug : String) : Bool :=
  3 ≤ title.length && 3 ≤ slug.length



/-! ## Helper lemmas about the join expansion -/

theorem leftJoin_ne_nil {α : Type} (xs : List α) : leftJoin xs ≠ [] := by
  cases xs <;> simp [leftJoin]

theorem exists_mem_leftJoin {α : Type} (xs : List α) : ∃ o, o ∈ leftJoin xs :=
  List.exists_mem_of_ne_nil _ (leftJoin_ne_nil xs)

theorem mem_leftJoin_some {α : Type} {xs : List α} {a : α} :
    some a ∈ leftJoin xs ↔ a ∈ xs := by
  cases xs <;> simp [leftJoin]

theorem mem_joinedRows {st : Store} {p : ProjectRow} {row : JoinedRow} :
    row ∈ joinedRows st p ↔
      row.d ∈ leftJoin (detailsFor st p.id) ∧ row.t ∈ leftJoin (techsFor st p.id) ∧
      row.s ∈ leftJoin (stepsFor st p.id) ∧ row.r ∈ leftJoin (resultsFor st p.id) ∧
      row.l ∈ leftJoin (linksFor st p.id) := by
  cases row with
  | mk d t s r l =>
    simp only [joinedRows, List.mem_flatMap, List.mem_map]
    constructor
    · rintro ⟨d', hd, t', ht, s', hs, r', hr, l', hl, heq⟩
      cases heq
      exact ⟨hd, ht, hs, hr, hl⟩
    · rintro ⟨hd, ht, hs, hr, hl⟩
      exact ⟨d, hd, t, ht, s, hs, r, hr, l, hl, rfl⟩

theorem mem_aggTechStack {st : Store} {p : ProjectRow} {x : String} :
    x ∈ aggTechStack (joinedRows st p) ↔ ∃ tr ∈ techsFor st p.id, tr.tech = some x := by
  simp only [aggTechStack, List.mem_dedup, List.mem_filterMap]
  constructor
  · rintro ⟨row, hrow, hx⟩
    rw [mem_joinedRows] at hrow
    cases htr : row.t with
    | none => rw [htr] at hx; simp at hx
    | some tr =>
      rw [htr] at hx
      simp only [Option.some_bind] at hx
      refine ⟨tr, ?_, hx⟩
      have hmem := hrow.2.1
      rw [htr] at hmem
      exact mem_leftJoin_some.1 hmem
  · rintro ⟨tr, htr, hx⟩
    obtain ⟨d, hd⟩ := exists_mem_leftJoin (detailsFor st p.id)
    obtain ⟨s, hs⟩ := exists_mem_leftJoin (stepsFor st p.id)
    obtain ⟨r, hr⟩ := exists_mem_leftJoin (resultsFor st p.id)
    obtain ⟨l, hl⟩ := exists_mem_leftJoin (linksFor st p.id)
    refine ⟨⟨d, some tr, s, r, l⟩, ?_, ?_⟩
    · rw [mem_joinedRows]
      exact ⟨hd, mem_leftJoin_some.2 htr, hs, hr, hl⟩
    · simpa using hx

theorem mem_aggSteps {st : Store} {p : ProjectRow} {e : StepEntry} :
    e ∈ aggSteps (joinedRows st p) ↔
      ∃ sr ∈ stepsFor st p.id, e = StepEntry.mk sr.title sr.description sr.position := by
  simp only [aggSteps, List.mem_dedup, List.mem_insertionSort, List.mem_filterMap]
  constructor
  · rintro ⟨row, hrow, hx⟩
    rw [mem_joinedRows] at hrow
    cases hsr : row.s with
    | none => rw [hsr] at hx; simp at hx
    | some sr =>
      rw [hsr] at hx
      simp only [Option.map_some', Option.some.injEq] at hx
      refine ⟨sr, ?_, hx.symm⟩
      have hmem := hrow.2.2.1
      rw [hsr] at hmem
      exact mem_leftJoin_some.1 hmem
  · rintro ⟨sr, hsr, hx⟩
    obtain ⟨d, hd⟩ := exists_mem_leftJoin (detailsFor st p.id)
    obtain ⟨t, ht⟩ := exists_mem_leftJoin (techsFor st p.id)
    obtain ⟨r, hr⟩ := exists_mem_leftJoin (resultsFor st p.id)
    obtain ⟨l, hl⟩ := exists_mem_leftJoin (linksFor st p.id)
    refine ⟨⟨d, t, some sr, r, l⟩, ?_, ?_⟩
    · rw [mem_joinedRows]
      exact ⟨hd, ht, mem_leftJoin_some.2 hsr, hr, hl⟩
    · simp [hx]

theorem mem_aggResults {st : Store} {p : ProjectRow} {e : ResultEntry} :
    e ∈ aggResults (joinedRows st p) ↔
      ∃ rr ∈ resultsFor st p.id, e = ResultEntry.mk rr.label rr.value := by
  simp only [aggResults, List.mem_dedup, List.mem_filterMap]
  constructor
  · rintro ⟨row, hrow, hx⟩
    rw [mem_joinedRows] at hrow
    cases hrr : row.r with
    | none => rw [hrr] at hx; simp at hx
    | some rr =>
      rw [hrr] at hx
      simp only [Option.map_some', Option.some.injEq] at hx
      refine ⟨rr, ?_, hx.symm⟩
      have hmem := hrow.2.2.2.1
      rw [hrr] at hmem
      exact mem_leftJoin_some.1 hmem
  · rintro ⟨rr, hrr, hx⟩
    obtain ⟨d, hd⟩ := exists_mem_leftJoin (detailsFor st p.id)
    obtain ⟨t, ht⟩ := exists_mem_leftJoin (techsFor st p.id)
    obtain ⟨s, hs⟩ := exists_mem_leftJoin (stepsFor st p.id)
    obtain ⟨l, hl⟩ := exists_mem_leftJoin (linksFor st p.id)
    refine ⟨⟨d, t, s, some rr, l⟩, ?_, ?_⟩
    · rw [mem_joinedRows]
      exact ⟨hd, ht, hs, mem_leftJoin_some.2 hrr, hl⟩
    · simp [hx]

theorem mem_aggLinks {st : Store} {p : ProjectRow} {e : LinkEntry} :
    e ∈ aggLinks (joinedRows st p) ↔
      ∃ lr ∈ linksFor st p.id, e = LinkEntry.mk lr.label lr.url lr.icon := by
  simp only [aggLinks, List.mem_dedup, List.mem_filterMap]
  constructor
  · rintro ⟨row, hrow, hx⟩
    rw [mem_joinedRows] at hrow
    cases hlr : row.l with
    | none => rw [hlr] at hx; simp at hx
    | some lr =>
      rw [hlr] at hx
      simp only [Option.map_some', Option.some.injEq] at hx
      refine ⟨lr, ?_, hx.symm⟩
      have hmem := hrow.2.2.2.2
      rw [hlr] at hmem
      exact mem_leftJoin_some.1 hmem
  · rintro ⟨lr, hlr, hx⟩
    obtain ⟨d, hd⟩ := exists_mem_leftJoin (detailsFor st p.id)
    obtain ⟨t, ht⟩ := exists_mem_leftJoin (techsFor st p.id)
    obtain ⟨s, hs⟩ := exists_mem_leftJoin (stepsFor st p.id)
    obtain ⟨r, hr⟩ := exists_mem_leftJoin (resultsFor st p.id)
    refine ⟨⟨d, t, s, r, some lr⟩, ?_, ?_⟩
    · rw [mem_joinedRows]
      exact ⟨hd, ht, hs, hr, mem_leftJoin_some.2 hlr⟩
    · simp [hx]

theorem aggSteps_pairwise (rows : List JoinedRow) :
    (aggSteps rows).Pairwise stepLe :=
  List.Pairwise.sublist (List.dedup_sublist _) (List.sorted_insertionSort stepLe _)


/-! ## Connection lifecycle model

Each handler in `main.py` opens a psycopg2 connection with `get_connection()`
and executes a statement that may raise.  The run model mirrors the handler's
statement order and records whether `conn.close()` ran on the exit path
taken; the executed statement's failure is modelled by a boolean.  A request
rejected by the `admin_auth` dependency never acquires a connection, so it
leaves no connection unreleased. -/

/-- Errors escaping a handler: either an `HTTPException` or a propagated
database exception from the executed statement. -/
inductive RequestError where
  | http (e : HTTPError)
  | db
deriving DecidableEq, Repr

/-- Outcome of one handler run plus whether the connection acquired by the
handler was released (`true` also when no connection was ever acquired). -/
structure RunResult (α : Type) where
  outcome : Except RequestError α
  connReleased : Bool

/-- `GET /projects`: `conn = get_connection(); cur.execute(...)` — an
exception in `execute`/`fetchall` propagates before `cur.close();
conn.close()` are reached; on success both run and the data is returned. -/
def get_projects_run (st : Store) (execFails : Bool) : RunResult (List ProjectDoc) :=
  if execFails then
    ⟨.error .db, false⟩
  else
    ⟨.ok (project_query_rows st), true⟩

/-- `GET /projects/{slug}`: same shape; the 404 `HTTPException` is raised
only after `cur.close(); conn.close()`. -/
def get_project_run (st : Store) (slug : String) (execFails : Bool) :
    RunResult ProjectDoc :=
  if execFails then
    ⟨.error .db, false⟩
  else
    match project_query_row st slug with
    | none => ⟨.error (.http ⟨404, "Project not found"⟩), true⟩
    | some doc => ⟨.ok doc, true⟩

/-- `POST /admin/projects`: the handler body is a `try`/`except
UniqueViolation`/`finally` where the `finally` block runs `cur.close();
conn.close()` on every path — statement error, unique violation, success. -/
def create_project_run (st : Store) (adminToken x_admin_token : Option String)
    (title slug category short_desc cover_color : String)
    (is_published : Bool) (execFails : Bool) :
    RunResult CreateResp × Store :=
  match admin_auth adminToken x_admin_token with
  | .error e => (⟨.error (.http e), true⟩, st)
  | .ok () =>
    if execFails then
      (⟨.error .db, true⟩, st)
    else
      let r := create_project st adminToken x_admin_token
        title slug category short_desc cover_color is_published
      (⟨r.1.mapError RequestError.http, true⟩, r.2)

/-- `PATCH /admin/projects/{project_id}/publish`: no `try`/`finally`; an
exception in `execute` propagates before `conn.close()`, while the 404 is
raised only after `commit(); cur.close(); conn.close()`. -/
def toggle_publish_run (st : Store) (adminToken x_admin_token : Option String)
    (project_id : Nat) (execFails : Bool) : RunResult Bool × Store :=
  match admin_auth adminToken x_admin_token with
  | .error e => (⟨.error (.http e), true⟩, st)
  | .ok () =>
    if execFails then
      (⟨.error .db, false⟩, st)
    else
      let r := toggle_publish st adminToken x_admin_token project_id
      (⟨r.1.mapError RequestError.http, true⟩, r.2)

/-! ## Generic list lemmas used by several claims -/

theorem head?_filter_eq_of_all {α : Type} (pred : α → Bool) (l : List α) (a : α)
    (ha : a ∈ l) (hpa : pred a = true)
    (hall : ∀ b ∈ l, pred b = true → b = a) :
    (l.filter pred).head? = some a := by
  induction l with
  | nil => cases ha
  | cons x xs ih =>
    by_cases hx : pred x = true
    · rw [List.filter_cons_of_pos hx]
      rw [hall x (List.mem_cons_self x xs) hx]
      rfl
    · rw [List.filter_cons_of_neg (by simpa using hx)]
      have hax : a ≠ x := fun h => hx (h ▸ hpa)
      have ha' : a ∈ xs := by
        rcases List.mem_cons.1 ha with h | h
        · exact absurd h hax
        · exact h
      exact ih ha' (fun b hb hp => hall b (List.mem_cons_of_mem x hb) hp)

/-! ## Evaluation helpers for the mutating endpoints -/

theorem create_project_ok (st : Store) (tok hdr : Option String)
    (title slug category short_desc cover_color : String) (pub : Bool)
    (hauth : admin_auth tok hdr = .ok ())
    (hnoconf : ∀ p ∈ st.projects, p.slug ≠ normalize_slug slug) :
    create_project st tok hdr title slug category short_desc cover_color pub =
      (.ok ⟨true, nextId st⟩,
       { st with projects := st.projects ++
          [{ id := nextId st, title := title, slug := normalize_slug slug,
             category := category, short_desc := short_desc,
             cover_color := cover_color, created_at := nextId st,
             is_published := pub }] }) := by
  unfold create_project
  rw [hauth]
  have hany : (st.projects.any fun p => p.slug = normalize_slug slug) = false := by
    rw [List.any_eq_false]
    intro p hp
    simpa using hnoconf p hp
  simp [hany]

theorem toggleRow_id (pid : Nat) (p : ProjectRow) : (toggleRow pid p).id = p.id := by
  unfold toggleRow
  split <;> rfl

theorem toggleRow_involutive (pid : Nat) (p : ProjectRow) :
    toggleRow pid (toggleRow pid p) = p := by
  cases p with
  | mk i ti sl ca sd cc cr pub =>
    unfold toggleRow
    by_cases h : i = pid
    · subst h
      simp [Bool.not_not]
    · simp [h]

theorem filter_map_toggleRow (l : List ProjectRow) (pid : Nat) :
    (l.map (toggleRow pid)).filter (fun p => p.id = pid)
      = (l.filter (fun p => p.id = pid)).map (toggleRow pid) := by
  induction l with
  | nil => rfl
  | cons x xs ih =>
    by_cases hx : x.id = pid
    · simp [List.filter_cons, toggleRow_id, hx, ih]
    · simp [List.filter_cons, toggleRow_id, hx, ih]

theorem toggle_publish_eval (st : Store) (tok hdr : Option String) (pid : Nat)
    (p0 : ProjectRow)
    (hauth : admin_auth tok hdr = .ok ())
    (hfind : (st.projects.filter (fun p => p.id = pid)).head? = some p0) :
    toggle_publish st tok hdr pid
      = (.ok (toggleRow pid p0).is_published,
         { st with projects := st.projects.map (toggleRow pid) }) := by
  unfold toggle_publish
  rw [hauth]
  have h2 : ((st.projects.map (toggleRow pid)).filter (fun p => p.id = pid)).head?
      = some (toggleRow pid p0) := by
    rw [filter_map_toggleRow, List.head?_map, hfind]
    rfl
  simp only [h2]

/-! ## Concrete stores used as claim witnesses -/

/-- A published project used by concrete test stores. -/
def demoProject : ProjectRow := ⟨1, "Demo", "demo", "cat", "sd", "#fff", 10, true⟩

/-- A published project whose step rows carry positions 3, 1, 2 (in table
order). -/
def stepsDemoStore : Store :=
  { Store.empty with
    projects := [demoProject]
    steps := [⟨1, 1, "c", "t3", 3⟩, ⟨2, 1, "a", "t1", 1⟩, ⟨3, 1, "b", "t2", 2⟩] }

/-- A published project with no rows in any child table. -/
def bareProject : ProjectRow := ⟨2, "Bare", "bare", "cat", "sd", "#000", 5, true⟩

/-- A store holding only `bareProject`. -/
def bareStore : Store := { Store.empty with projects := [bareProject] }

/-- An unpublished project. -/
def hiddenProject : ProjectRow := ⟨3, "Hidden", "hidden", "cat", "sd", "#000", 7, false⟩

/-- A store holding only the unpublished `hiddenProject`. -/
def hiddenStore : Store := { Store.empty with projects := [hiddenProject] }

/-- A store holding one unpublished project with id 4, for the publish
toggle. -/
def toggleDemoStore : Store :=
  { Store.empty with projects := [⟨4, "Toggle", "toggle", "cat", "sd", "#000", 2, false⟩] }

/-- The store after a first successful create of slug `"My-Slug"`. -/
def firstCreateStore : Store :=
  (create_project Store.empty (some "secret") (some "secret")
    "First project" "My-Slug" "cat" "sd" "#fff" false).2

/-! ## Claim theorems -/

/-- **C6** (code bug): the schema of `schemas.py` declares `min_length=3` for
`title` and `slug`, but `create_project` takes plain string parameters and
never applies `ProjectCreate`; a create request with two-character title and
slug reaches the store, inserts the row and succeeds instead of being
rejected by validation. -/
theorem create_bypasses_schema_validation :
    ProjectBase_valid "ab" "ab" = false ∧
    (create_project Store.empty (some "secret") (some "secret")
        "ab" "ab" "cat" "sd" "#fff" false).1 = .ok ⟨true, 1⟩ ∧
    (create_project Store.empty (some "secret") (some "secret")
        "ab" "ab" "cat" "sd" "#fff" false).2.projects
      = [⟨1, "ab", "ab", "cat", "sd", "#fff", 1, false⟩] :=
  ⟨by decide, by decide, by decide⟩

/-- **C7** (counterexample): when the executed statement raises, the
`GET /projects` handler propagates the exception before `conn.close()` is
reached, so the connection is not released on that exit path. -/
theorem get_projects_connection_leak :
    (get_projects_run Store.empty true).connReleased = false := rfl

/-- **C7** (amended): only `POST /admin/projects` releases the connection on
every exit path (its handler body is wrapped in `try`/`finally`); the other
three endpoints release it exactly when the executed statement does not
raise. -/
theorem connection_release_per_endpoint :
    (∀ (st : Store) (tok hdr : Option String)
        (title slug category short_desc cover_color : String)
        (pub fail : Bool),
      (create_project_run st tok hdr title slug category short_desc
        cover_color pub fail).1.connReleased = true) ∧
    (∀ (st : Store) (fail : Bool), (get_projects_run st fail).connReleased = !fail) ∧
    (∀ (st : Store) (slug : String) (fail : Bool),
      (get_project_run st slug fail).connReleased = !fail) ∧
    (∀ (st : Store) (tok hdr : Option String) (pid : Nat) (fail : Bool),
      admin_auth tok hdr = .ok () →
        (toggle_publish_run st tok hdr pid fail).1.connReleased = !fail) := by
  refine ⟨?_, ?_, ?_, ?_⟩
  · intro st tok hdr title slug category short_desc cover_color pub fail
    unfold create_project_run
    cases admin_auth tok hdr with
    | error e => rfl
    | ok u => cases u; cases fail <;> rfl
  · intro st fail
    cases fail <;> rfl
  · intro st slug fail
    cases fail with
    | true => rfl
    | false =>
      unfold get_project_run
      simp only [Bool.false_eq_true, if_false]
      cases project_query_row st slug <;> rfl
  · intro st tok hdr pid fail hauth
    unfold toggle_publish_run
    rw [hauth]
    cases fail <;> rfl

/-- **C7** witness for the amended claim: the toggle endpoint, with a valid
credential and a failing statement, leaves the connection unreleased. -/
theorem connection_release_per_endpoint_witness :
    (admin_auth (some "secret") (some "secret") = .ok ()) ∧
    (toggle_publish_run Store.empty (some "secret") (some "secret") 1 true).1.connReleased
      = !true :=
  ⟨by decide,
   connection_release_per_endpoint.2.2.2 Store.empty (some "secret") (some "secret") 1 true
     (by decide)⟩

/-- **C10**: with `ADMIN_TOKEN` configured as the empty string, Python's
`if not ADMIN_TOKEN` treats it as unset, so `admin_auth` answers 500 for
every credential header — absent, empty or otherwise — and both admin
endpoints reject every request, leaving the store unchanged. -/
theorem empty_admin_token_rejects_all :
    (∀ hdr : Option String,
      admin_auth (some "") hdr = .error ⟨500, "ADMIN_TOKEN not set"⟩) ∧
    (∀ (st : Store) (hdr : Option String)
        (title slug category short_desc cover_color : String) (pub : Bool),
      create_project st (some "") hdr title slug category short_desc cover_color pub
        = (.error ⟨500, "ADMIN_TOKEN not set"⟩, st)) ∧
    (∀ (st : Store) (hdr : Option String) (pid : Nat),
      toggle_publish st (some "") hdr pid
        = (.error ⟨500, "ADMIN_TOKEN not set"⟩, st)) :=
  ⟨fun _ => rfl, fun _ _ _ _ _ _ _ _ => rfl, fun _ _ _ => rfl⟩

/-- **C4**: an authorized create whose normalized slug equals the slug of an
existing row fails with the 409 conflict error and leaves the store exactly
as it was. -/
theorem duplicate_slug_conflict (st : Store) (tok hdr : Option String)
    (title slug category short_desc cover_color : String) (pub : Bool)
    (hauth : admin_auth tok hdr = .ok ())
    (hconf : ∃ p ∈ st.projects, p.slug = normalize_slug slug) :
    create_project st tok hdr title slug category short_desc cover_color pub
      = (.error ⟨409, "Slug already exists"⟩, st) := by
  unfold create_project
  rw [hauth]
  have hany : (st.projects.any fun p => p.slug = normalize_slug slug) = true := by
    rcases hconf with ⟨p, hp, hps⟩
    exact List.any_eq_true.2 ⟨p, hp, by simp [hps]⟩
  simp [hany]

/-- **C4** witness: after a first create stores slug `"my-slug"`, a second
authorized create whose slug normalizes to the same value answers 409 and
the store still holds only the first project. -/
theorem duplicate_slug_conflict_witness :
    (admin_auth (some "secret") (some "secret") = .ok ()) ∧
    (∃ p ∈ firstCreateStore.projects, p.slug = normalize_slug "  my-SLUG") ∧
    create_project firstCreateStore (some "secret") (some "secret")
        "Second project" "  my-SLUG" "cat" "sd" "#fff" false
      = (.error ⟨409, "Slug already exists"⟩, firstCreateStore) :=
  ⟨by decide, by decide,
   duplicate_slug_conflict firstCreateStore (some "secret") (some "secret")
     "Second project" "  my-SLUG" "cat" "sd" "#fff" false (by decide) (by decide)⟩

/-- **C8**: for an id the store holds, the publish toggle negates the flag
and returns the new value; toggling the same id twice returns first the
negated and then the original value and restores the store exactly. -/
theorem toggle_publish_flips_twice (st : Store) (tok hdr : Option String) (pid : Nat)
    (p0 : ProjectRow)
    (hauth : admin_auth tok hdr = .ok ())
    (hfind : (st.projects.filter (fun p => p.id = pid)).head? = some p0) :
    (toggle_publish st tok hdr pid).1 = .ok (!p0.is_published) ∧
    (toggle_publish (toggle_publish st tok hdr pid).2 tok hdr pid).1
      = .ok p0.is_published ∧
    (toggle_publish (toggle_publish st tok hdr pid).2 tok hdr pid).2 = st := by
  have hp0mem : p0 ∈ st.projects.filter (fun p => p.id = pid) := by
    cases hfl : st.projects.filter (fun p => p.id = pid) with
    | nil => rw [hfl] at hfind; exact Option.noConfusion hfind
    | cons a t =>
      rw [hfl] at hfind
      injection hfind with h
      subst h
      exact List.mem_cons_self a t
  have hp0id : p0.id = pid := by simpa using (List.mem_filter.1 hp0mem).2
  have h1 := toggle_publish_eval st tok hdr pid p0 hauth hfind
  have hfind2 : (({ st with projects := st.projects.map (toggleRow pid) } : Store).projects.filter
      (fun p => p.id = pid)).head? = some (toggleRow pid p0) := by
    show ((st.projects.map (toggleRow pid)).filter (fun p => p.id = pid)).head? = _
    rw [filter_map_toggleRow, List.head?_map, hfind]
    rfl
  have h2 := toggle_publish_eval { st with projects := st.projects.map (toggleRow pid) }
    tok hdr pid (toggleRow pid p0) hauth hfind2
  have hflip : (toggleRow pid p0).is_published = !p0.is_published := by
    unfold toggleRow
    rw [if_pos hp0id]
  have hmapmap : (st.projects.map (toggleRow pid)).map (toggleRow pid) = st.projects := by
    rw [List.map_map]
    have hpt : ∀ q ∈ st.projects, (toggleRow pid ∘ toggleRow pid) q = q :=
      fun q _ => toggleRow_involutive pid q
    rw [List.map_congr_left hpt]
    simp
  refine ⟨?_, ?_, ?_⟩
  · rw [h1, hflip]
  · rw [h1, h2, toggleRow_involutive]
  · rw [h1, h2]
    show ({ st with projects := (st.projects.map (toggleRow pid)).map (toggleRow pid) } : Store)
      = st
    rw [hmapmap]

/-- **C8** witness: toggling the single project of a concrete store twice
returns `true` then `false` and restores the store. -/
theorem toggle_publish_flips_twice_witness :
    (admin_auth (some "secret") (some "secret") = .ok ()) ∧
    ((toggleDemoStore.projects.filter (fun p => p.id = 4)).head?
      = some ⟨4, "Toggle", "toggle", "cat", "sd", "#000", 2, false⟩) ∧
    ((toggle_publish toggleDemoStore (some "secret") (some "secret") 4).1 = .ok true ∧
     (toggle_publish (toggle_publish toggleDemoStore (some "secret") (some "secret") 4).2
        (some "secret") (some "secret") 4).1 = .ok false ∧
     (toggle_publish (toggle_publish toggleDemoStore (some "secret") (some "secret") 4).2
        (some "secret") (some "secret") 4).2 = toggleDemoStore) :=
  ⟨by decide, by decide,
   toggle_publish_flips_twice toggleDemoStore (some "secret") (some "secret") 4
     ⟨4, "Toggle", "toggle", "cat", "sd", "#000", 2, false⟩ (by decide) (by decide)⟩

/-- A published project with two tech rows and three step rows: the five-way
join expands it to 2 × 3 = 6 joined rows before aggregation. -/
def cartesianStore : Store :=
  { Store.empty with
    projects := [demoProject]
    techs := [⟨1, some "python"⟩, ⟨1, some "fastapi"⟩]
    steps := [⟨1, 1, "a", "x", 1⟩, ⟨2, 1, "b", "y", 2⟩, ⟨3, 1, "c", "z", 3⟩] }

/-- **C1** (code bug): the steps aggregate of `PROJECT_QUERY` uses
`DISTINCT` with `ORDER BY s.position`, an expression that is not the
aggregate's argument, so PostgreSQL rejects the statement (SQLSTATE 42P10)
on every execution: both read endpoints answer the 500 database error and
no steps array — sorted or otherwise — is ever returned.  The statement's
declarative reading would indeed have served the [3,1,2] store sorted as
[1,2,3]. -/
theorem steps_never_served :
    orderByOkForDistinct stepsAggregate = false ∧
    PROJECT_QUERY_accepted = false ∧
    get_projects stepsDemoStore = .error ⟨500, "Internal Server Error"⟩ ∧
    get_project stepsDemoStore "demo" = .error ⟨500, "Internal Server Error"⟩ ∧
    (aggregate_project stepsDemoStore demoProject).steps.map (fun e => e.position)
      = [1, 2, 3] :=
  ⟨by decide, by decide, by decide, by decide, by decide⟩

/-- **C2** (code bug): a published project with zero child rows is never
served with empty arrays and a null-field `details` object, because the
read statement is rejected by PostgreSQL and both read endpoints answer
500.  The statement's declarative reading would have produced exactly the
claimed document shape. -/
theorem empty_children_doc_never_served :
    PROJECT_QUERY_accepted = false ∧
    get_projects bareStore = .error ⟨500, "Internal Server Error"⟩ ∧
    get_project bareStore "bare" = .error ⟨500, "Internal Server Error"⟩ ∧
    ((aggregate_project bareStore bareProject).tech_stack = [] ∧
     (aggregate_project bareStore bareProject).steps = [] ∧
     (aggregate_project bareStore bareProject).results = [] ∧
     (aggregate_project bareStore bareProject).links = [] ∧
     (aggregate_project bareStore bareProject).details
       = ⟨none, none, none, none, none, none⟩) :=
  ⟨by decide, by decide, by decide, by decide⟩

/-- **C3** (code bug): `GET /projects/{slug}` on an unpublished project's
slug answers the 500 database error, not the claimed 404 — `cur.execute`
raises before `fetchone`, so the handler's 404 branch is unreachable — and
`GET /projects` answers 500 rather than a list omitting the project. -/
theorem unpublished_slug_gets_500_not_404 :
    PROJECT_QUERY_accepted = false ∧
    get_project hiddenStore "hidden" = .error ⟨500, "Internal Server Error"⟩ ∧
    get_project hiddenStore "hidden" ≠ .error ⟨404, "Project not found"⟩ ∧
    get_projects hiddenStore = .error ⟨500, "Internal Server Error"⟩ :=
  ⟨by decide, by decide, by decide, by decide⟩

/-- **C5** (code bug): an authorized create with slug `"  My-Slug "` does
store the row under the normalized slug `"my-slug"` (published), but the
project is never retrievable under that slug: `GET /projects/my-slug`
answers the 500 database error because the read statement is rejected by
PostgreSQL. -/
theorem normalized_slug_stored_but_unretrievable :
    normalize_slug "  My-Slug " = "my-slug" ∧
    (create_project Store.empty (some "secret") (some "secret")
        "My project" "  My-Slug " "cat" "sd" "#fff" true).2.projects
      = [⟨1, "My project", "my-slug", "cat", "sd", "#fff", 1, true⟩] ∧
    get_project (create_project Store.empty (some "secret") (some "secret")
        "My project" "  My-Slug " "cat" "sd" "#fff" true).2 "my-slug"
      = .error ⟨500, "Internal Server Error"⟩ :=
  ⟨by decide, by decide, by decide⟩

/-- **C9** (code bug): the deduplicating aggregation never executes —
PostgreSQL rejects `PROJECT_QUERY` (invalid steps aggregate) and the list
endpoint answers 500 — so the program never produces the collections the
claim describes.  Under the statement's declarative reading the 2 tech × 3
step rows expand to 6 joined rows and the tech array would collapse back,
deduplicated, to the two distinct entries. -/
theorem aggregation_never_runs :
    PROJECT_QUERY_accepted = false ∧
    get_projects cartesianStore = .error ⟨500, "Internal Server Error"⟩ ∧
    ((joinedRows cartesianStore demoProject).length = 6 ∧
     (aggregate_project cartesianStore demoProject).tech_stack = ["python", "fastapi"] ∧
     (aggregate_project cartesianStore demoProject).tech_stack.Nodup) :=
  ⟨by decide, by decide, by decide⟩

end FlowForge
